import Mathlib

/-!
# Verification of the reddit_agent admission and approval pipeline

Shallow embedding of the core services of the `reddit_agent` repository:

* `src/services/state_manager.py` — draft queue, approval state machine,
  token lookup, cooldown logic, daily volume limits;
* `src/services/reddit_client.py` — shadowban risk calculation and the
  pre-network check sequence of each client operation;
* `src/services/quality_scorer.py` — weight normalization and the
  seven-factor composite quality score;
* `src/workflow/nodes.py` / `src/workflow/graph.py` — the diversity
  selection stage and the daily-cap dispatch loop.

Python `datetime` values are embedded as integer seconds since an arbitrary
epoch.  The SQL store backing the state manager is embedded as a list of
records in insertion order; SQLAlchemy `.first()` becomes `List.find?`.
The SHA-256 hash from `hashlib` is library code, not repository code, so it
is carried as an explicit function parameter `hash : String → String`; no
theorem below depends on any property of that function.
-/

namespace RedditAgent

/-! ## State manager: draft queue (src/services/state_manager.py) -/

/-- `TOKEN_TTL_HOURS = 48` (state_manager.py line 26). -/
def TOKEN_TTL_HOURS : Int := 48

/-- The allowed-transition table `ALLOWED_TRANSITIONS`
(state_manager.py lines 29-34).  Unknown states map to the empty set,
mirroring `ALLOWED_TRANSITIONS.get(old_status, set())` (line 183). -/
def ALLOWED_TRANSITIONS (status : String) : List String :=
  if status = "PENDING" then ["APPROVED", "REJECTED"]
  else if status = "APPROVED" then ["PUBLISHED"]
  else if status = "REJECTED" then []
  else if status = "PUBLISHED" then []
  else []

/-- A row of the `draft_queue` table.  Fields follow the `DraftQueue` model
(src/models/database.py lines 37-59) together with the `approve_url` and
`reject_url` columns added by migration 006 and assigned by
`StateManager.save_draft` (state_manager.py lines 134-135). -/
structure DraftQueue where
  draft_id : String
  reddit_id : String
  subreddit : String
  content : String
  context_url : String
  status : String
  created_at : Int
  approved_at : Option Int := none
  approval_token_hash : Option String := none
  approve_url : Option String := none
  reject_url : Option String := none
  candidate_type : String := "comment"
  quality_score : ℚ := 0
deriving Repr, DecidableEq

/-- `session.query(DraftQueue).filter_by(draft_id=...).first()`. -/
def findDraft (store : List DraftQueue) (draft_id : String) : Option DraftQueue :=
  store.find? (fun d => d.draft_id == draft_id)

/-- Replace the first row whose `draft_id` matches (in-place ORM update). -/
def setDraft (store : List DraftQueue) (draft_id : String) (d : DraftQueue) :
    List DraftQueue :=
  match store with
  | [] => []
  | x :: xs => if x.draft_id == draft_id then d :: xs else x :: setDraft xs draft_id d

/-- `StateManager.update_draft_status` (state_manager.py lines 161-210).
Returns `(True, updated store)` on a legal transition; on a missing draft or
an illegal transition it returns `False` and the store untouched.  On
`APPROVED` the approval time is recorded; on `APPROVED` or `REJECTED` the
stored token hash is cleared (lines 195-200). -/
def update_draft_status (store : List DraftQueue) (draft_id status : String)
    (now : Int) : Bool × List DraftQueue :=
  match findDraft store draft_id with
  | none => (false, store)
  | some draft =>
    if (ALLOWED_TRANSITIONS draft.status).contains status then
      let draft := { draft with
        status := status
        approved_at := if status = "APPROVED" then some now else draft.approved_at
        approval_token_hash :=
          if status = "APPROVED" ∨ status = "REJECTED" then none
          else draft.approval_token_hash }
      (true, setDraft store draft_id draft)
    else
      (false, store)

/-- `StateManager.save_draft` (state_manager.py lines 86-159).  The random
`secrets.token_urlsafe(32)` value is passed in as `approval_token`; the
configured `settings.public_url` (already stripped of a trailing slash,
line 121) as `base_url`.  A row violating the uniqueness of `reddit_id`
(or the `draft_id` primary key) raises `IntegrityError` at commit, which
the method swallows after a rollback and maps to `None` (lines 152-159). -/
def save_draft (hash : String → String) (base_url : String)
    (store : List DraftQueue)
    (draft_id reddit_id subreddit content context_url : String)
    (status : String) (candidate_type : String) (quality_score : ℚ)
    (approval_token : String) (now : Int) :
    Option String × List DraftQueue :=
  if store.any (fun d => d.reddit_id == reddit_id || d.draft_id == draft_id) then
    (none, store)
  else
    let token_hash := hash approval_token
    let approve_url := base_url ++ "/approve?token=" ++ approval_token ++ "&action=approve"
    let reject_url := base_url ++ "/approve?token=" ++ approval_token ++ "&action=reject"
    let draft : DraftQueue := {
      draft_id := draft_id
      reddit_id := reddit_id
      subreddit := subreddit
      content := content
      context_url := context_url
      status := status
      created_at := now
      approval_token_hash := some token_hash
      approve_url := some approve_url
      reject_url := some reject_url
      candidate_type := candidate_type
      quality_score := quality_score }
    (some approval_token, store ++ [draft])

/-- `StateManager.get_draft_by_token` (state_manager.py lines 230-252).
Guard: `if not token or len(token) < 20: return None` (length 0 covers the
emptiness test).  Otherwise the first row matching hash, 48-hour window and
`PENDING` status is returned. -/
def get_draft_by_token (hash : String → String) (store : List DraftQueue)
    (token : String) (now : Int) : Option DraftQueue :=
  if token.length < 20 then none
  else
    let token_hash := hash token
    let cutoff := now - TOKEN_TTL_HOURS * 3600
    store.find? (fun d =>
      d.approval_token_hash == some token_hash
        && decide (cutoff ≤ d.created_at)
        && d.status == "PENDING")

/-- Number of rows holding a given `reddit_id`. -/
def countRedditId (store : List DraftQueue) (reddit_id : String) : Nat :=
  (store.filter (fun d => d.reddit_id == reddit_id)).length

/-- Number of rows holding a given stored token hash. -/
def countTokenHash (store : List DraftQueue) (h : String) : Nat :=
  (store.filter (fun d => d.approval_token_hash == some h)).length

/-! ### Helper lemmas about the draft store -/

theorem findDraft_eq_some_id {store : List DraftQueue} {i : String}
    {r : DraftQueue} (h : findDraft store i = some r) : r.draft_id = i := by
  induction store with
  | nil => simp [findDraft] at h
  | cons x xs ih =>
    cases hx : (x.draft_id == i) with
    | true =>
      simp only [findDraft, List.find?_cons, hx, Option.some.injEq] at h
      rw [← h]
      exact eq_of_beq hx
    | false =>
      simp only [findDraft, List.find?_cons, hx] at h
      exact ih h

theorem findDraft_setDraft {store : List DraftQueue} {i : String}
    {r : DraftQueue} (h : findDraft store i = some r) (d : DraftQueue)
    (hd : d.draft_id = i) : findDraft (setDraft store i d) i = some d := by
  induction store with
  | nil => simp [findDraft] at h
  | cons x xs ih =>
    cases hx : (x.draft_id == i) with
    | true =>
      simp only [setDraft, hx, if_true]
      simp [findDraft, List.find?_cons, hd]
    | false =>
      simp only [findDraft, List.find?_cons, hx] at h
      simp only [setDraft, hx, Bool.false_eq_true, if_false]
      simp only [findDraft, List.find?_cons, hx]
      exact ih h

theorem countTokenHash_cons (x : DraftQueue) (xs : List DraftQueue) (th : String) :
    countTokenHash (x :: xs) th =
      if (x.approval_token_hash == some th) = true then countTokenHash xs th + 1
      else countTokenHash xs th := by
  simp only [countTokenHash, List.filter_cons]
  split <;> simp

theorem countTokenHash_pos {xs : List DraftQueue} {d : DraftQueue} {th : String}
    (hmem : d ∈ xs) (hd : d.approval_token_hash = some th) :
    1 ≤ countTokenHash xs th := by
  have hf : d ∈ xs.filter (fun x => x.approval_token_hash == some th) := by
    simp [List.mem_filter, hmem, hd]
  have := List.length_pos.mpr (List.ne_nil_of_mem hf)
  simpa [countTokenHash] using this

/-- If a store holds a token hash on at most one row and that row is the one
`setDraft` overwrites with a hash-free row, no row of the result holds the
hash any more. -/
theorem setDraft_token_free (th : String) (r1 : DraftQueue)
    (hr1 : r1.approval_token_hash ≠ some th) :
    ∀ (store : List DraftQueue) (i : String) (r : DraftQueue),
      findDraft store i = some r →
      r.approval_token_hash = some th →
      countTokenHash store th ≤ 1 →
      ∀ d ∈ setDraft store i r1, d.approval_token_hash ≠ some th := by
  intro store
  induction store with
  | nil => intro i r h; simp [findDraft] at h
  | cons x xs ih =>
    intro i r h hr hcount d hd
    cases hx : (x.draft_id == i) with
    | true =>
      simp only [findDraft, List.find?_cons, hx, Option.some.injEq] at h
      simp only [setDraft, hx, if_true] at hd
      rcases List.mem_cons.mp hd with rfl | hdmem
      · exact hr1
      · intro hdth
        have h1 : 1 ≤ countTokenHash xs th := countTokenHash_pos hdmem hdth
        rw [countTokenHash_cons] at hcount
        simp only [h, hr, beq_self_eq_true, if_true] at hcount
        omega
    | false =>
      simp only [findDraft, List.find?_cons, hx] at h
      simp only [setDraft, hx, Bool.false_eq_true, if_false] at hd
      have hrmem : r ∈ xs := List.mem_of_find?_eq_some h
      have hxc : countTokenHash xs th ≤ 1 := by
        rw [countTokenHash_cons] at hcount
        split at hcount <;> omega
      rcases List.mem_cons.mp hd with rfl | hdmem
      · intro hdth
        have h1 : 1 ≤ countTokenHash xs th := countTokenHash_pos hrmem hr
        rw [countTokenHash_cons] at hcount
        simp only [hdth, beq_self_eq_true, if_true] at hcount
        omega
      · exact ih i r h hr hxc d hdmem

/-- Unfolding lemma: a legal transition returns `True` and rewrites the
matched row in place. -/
theorem update_draft_status_success (store : List DraftQueue) (i X : String)
    (now : Int) (r : DraftQueue) (h : findDraft store i = some r)
    (hX : X ∈ ALLOWED_TRANSITIONS r.status) :
    update_draft_status store i X now =
      (true, setDraft store i
        { r with
          status := X
          approved_at := if X = "APPROVED" then some now else r.approved_at
          approval_token_hash :=
            if X = "APPROVED" ∨ X = "REJECTED" then none
            else r.approval_token_hash }) := by
  have hc : (ALLOWED_TRANSITIONS r.status).contains X = true := by simpa using hX
  simp [update_draft_status, h, hc, hX]

/-- Unfolding lemma: an illegal transition returns `False` and leaves the
whole store (hence every field of every draft) unchanged. -/
theorem update_draft_status_illegal (store : List DraftQueue) (i X : String)
    (now : Int) (r : DraftQueue) (h : findDraft store i = some r)
    (hX : X ∉ ALLOWED_TRANSITIONS r.status) :
    update_draft_status store i X now = (false, store) := by
  have hc : (ALLOWED_TRANSITIONS r.status).contains X = false := by simpa using hX
  simp [update_draft_status, h, hc, hX]

/-- C1 — State-machine legality: for every draft in state `S` and every
target `X` outside the allowed-transition table (`PENDING → {APPROVED,
REJECTED}`, `APPROVED → PUBLISHED`, `REJECTED`/`PUBLISHED` terminal),
`update_draft_status` returns failure and leaves the store — status and all
other fields — unchanged; the chain `PENDING → APPROVED → PUBLISHED`
succeeds in order; any transition out of `PUBLISHED` fails. -/
theorem C1_state_machine_legality :
    (∀ (store : List DraftQueue) (i X : String) (now : Int) (r : DraftQueue),
      findDraft store i = some r → X ∉ ALLOWED_TRANSITIONS r.status →
      update_draft_status store i X now = (false, store))
    ∧ (∀ (store : List DraftQueue) (i : String) (t1 t2 : Int) (r : DraftQueue),
      findDraft store i = some r → r.status = "PENDING" →
      (update_draft_status store i "APPROVED" t1).1 = true
        ∧ (update_draft_status
            (update_draft_status store i "APPROVED" t1).2 i "PUBLISHED" t2).1 = true)
    ∧ (∀ (store : List DraftQueue) (i X : String) (now : Int) (r : DraftQueue),
      findDraft store i = some r → r.status = "PUBLISHED" →
      update_draft_status store i X now = (false, store)) := by
  refine ⟨?_, ?_, ?_⟩
  · intro store i X now r h hX
    exact update_draft_status_illegal store i X now r h hX
  · intro store i t1 t2 r h hs
    have hid := findDraft_eq_some_id h
    have hX1 : "APPROVED" ∈ ALLOWED_TRANSITIONS r.status := by
      rw [hs]; simp [ALLOWED_TRANSITIONS]
    have e1 := update_draft_status_success store i "APPROVED" t1 r h hX1
    refine ⟨by rw [e1], ?_⟩
    rw [e1]
    have hfind2 := findDraft_setDraft h
      ({ r with
          status := "APPROVED"
          approved_at := if "APPROVED" = "APPROVED" then some t1 else r.approved_at
          approval_token_hash :=
            if "APPROVED" = "APPROVED" ∨ "APPROVED" = "REJECTED" then none
            else r.approval_token_hash }) hid
    have hX2 : "PUBLISHED" ∈ ALLOWED_TRANSITIONS
        (({ r with
            status := "APPROVED"
            approved_at := if "APPROVED" = "APPROVED" then some t1 else r.approved_at
            approval_token_hash :=
              if "APPROVED" = "APPROVED" ∨ "APPROVED" = "REJECTED" then none
              else r.approval_token_hash } : DraftQueue)).status := by
      simp [ALLOWED_TRANSITIONS]
    rw [update_draft_status_success _ _ _ t2 _ hfind2 hX2]
  · intro store i X now r h hs
    apply update_draft_status_illegal store i X now r h
    rw [hs]
    simp [ALLOWED_TRANSITIONS]

/-- A concrete `PENDING` draft used to instantiate the hypotheses of the
state-machine theorems. -/
def sampleDraft : DraftQueue :=
  { draft_id := "d1", reddit_id := "r1", subreddit := "s", content := "c"
    context_url := "u", status := "PENDING", created_at := 0
    approval_token_hash := some "H" }

/-- Witness for C1 at a concrete one-row store: `PENDING → PUBLISHED` is
refused without touching the store, while `PENDING → APPROVED` succeeds. -/
theorem C1_state_machine_legality_witness :
    update_draft_status [sampleDraft] "d1" "PUBLISHED" 0 = (false, [sampleDraft])
    ∧ (update_draft_status [sampleDraft] "d1" "APPROVED" 5).1 = true := by
  constructor
  · exact C1_state_machine_legality.1 [sampleDraft] "d1" "PUBLISHED" 0 sampleDraft
      (by decide) (by decide)
  · exact (C1_state_machine_legality.2.1 [sampleDraft] "d1" 5 7 sampleDraft
      (by decide) (by decide)).1

/-- C2 — Token lookup: a lookup returns a draft only if the stored token
hash equals the hash of the supplied token, the draft is `PENDING`, and it
was created within the 48-hour window; conversely any store containing such
a draft yields a hit (for a well-formed token, i.e. one at least 20
characters long — see C10 for the guard); a successful transition to
`APPROVED` or `REJECTED` clears the stored hash, so a second lookup with
the same plaintext token returns not-found (`none`, the same value as for
an unknown token, not a distinct error). -/
theorem C2_token_lookup_validity :
    (∀ (hash : String → String) (store : List DraftQueue) (token : String)
        (now : Int) (r : DraftQueue),
      get_draft_by_token hash store token now = some r →
      r ∈ store ∧ r.approval_token_hash = some (hash token)
        ∧ r.status = "PENDING" ∧ now - TOKEN_TTL_HOURS * 3600 ≤ r.created_at)
    ∧ (∀ (hash : String → String) (store : List DraftQueue) (token : String)
        (now : Int),
      20 ≤ token.length →
      (∃ r ∈ store, r.approval_token_hash = some (hash token)
        ∧ r.status = "PENDING" ∧ now - TOKEN_TTL_HOURS * 3600 ≤ r.created_at) →
      (get_draft_by_token hash store token now).isSome = true)
    ∧ (∀ (store : List DraftQueue) (i X : String) (t : Int) (r : DraftQueue),
      findDraft store i = some r → r.status = "PENDING" →
      (X = "APPROVED" ∨ X = "REJECTED") →
      (update_draft_status store i X t).1 = true
        ∧ findDraft (update_draft_status store i X t).2 i =
            some { r with
              status := X
              approved_at := if X = "APPROVED" then some t else r.approved_at
              approval_token_hash := none })
    ∧ (∀ (hash : String → String) (store : List DraftQueue) (i token : String)
        (t now2 : Int) (r : DraftQueue),
      findDraft store i = some r → r.status = "PENDING" →
      r.approval_token_hash = some (hash token) →
      countTokenHash store (hash token) ≤ 1 →
      get_draft_by_token hash
        (update_draft_status store i "APPROVED" t).2 token now2 = none) := by
  refine ⟨?_, ?_, ?_, ?_⟩
  · intro hash store token now r h
    by_cases hlen : token.length < 20
    · simp [get_draft_by_token, hlen] at h
    · simp only [get_draft_by_token, hlen, if_false] at h
      have hmem := List.mem_of_find?_eq_some h
      have hp := List.find?_some h
      simp only [Bool.and_eq_true, beq_iff_eq, decide_eq_true_eq] at hp
      exact ⟨hmem, hp.1.1, hp.2, hp.1.2⟩
  · intro hash store token now hlen hex
    have hlt : ¬ token.length < 20 := by omega
    simp only [get_draft_by_token, hlt, if_false]
    rw [List.find?_isSome]
    rcases hex with ⟨r, hmem, hh, hs, ht⟩
    exact ⟨r, hmem, by simp [hh, hs, ht]⟩
  · intro store i X t r h hs hX
    have hid := findDraft_eq_some_id h
    have hXmem : X ∈ ALLOWED_TRANSITIONS r.status := by
      rw [hs]
      rcases hX with rfl | rfl <;> simp [ALLOWED_TRANSITIONS]
    have e := update_draft_status_success store i X t r h hXmem
    have hifs : (if X = "APPROVED" ∨ X = "REJECTED" then none
        else r.approval_token_hash) = (none : Option String) := if_pos hX
    constructor
    · rw [e]
    · rw [e]
      rw [hifs] at e ⊢
      exact findDraft_setDraft h _ hid
  · intro hash store i token t now2 r h hs hh hcount
    have hid := findDraft_eq_some_id h
    have hXmem : "APPROVED" ∈ ALLOWED_TRANSITIONS r.status := by
      rw [hs]; simp [ALLOWED_TRANSITIONS]
    have e := update_draft_status_success store i "APPROVED" t r h hXmem
    rw [e]
    by_cases hlen : token.length < 20
    · simp [get_draft_by_token, hlen]
    · simp only [get_draft_by_token, hlen, if_false]
      rw [List.find?_eq_none]
      intro d hd
      have hfree := setDraft_token_free (hash token)
        ({ r with
            status := "APPROVED"
            approved_at := if "APPROVED" = "APPROVED" then some t else r.approved_at
            approval_token_hash :=
              if "APPROVED" = "APPROVED" ∨ "APPROVED" = "REJECTED" then none
              else r.approval_token_hash })
        (by simp) store i r h hh hcount d hd
      simp [hfree]

/-- Concrete stand-in for the hash function, store and token used to
instantiate the token-lookup theorems. -/
def c2_hash (s : String) : String := String.append s "-sha"

def c2_token : String := "ABCDEFGHIJKLMNOPQRSTU"

def c2_draft : DraftQueue :=
  { draft_id := "d2", reddit_id := "r2", subreddit := "s", content := "c"
    context_url := "u", status := "PENDING", created_at := 0
    approval_token_hash := some (c2_hash c2_token) }

/-- Witness for C2: on a one-row store the pending draft is found by its
token, and after the `APPROVED` transition the same token resolves to
not-found. -/
theorem C2_token_lookup_validity_witness :
    (get_draft_by_token c2_hash [c2_draft] c2_token 0).isSome = true
    ∧ get_draft_by_token c2_hash
        (update_draft_status [c2_draft] "d2" "APPROVED" 1).2 c2_token 2 = none := by
  constructor
  · exact C2_token_lookup_validity.2.1 c2_hash [c2_draft] c2_token 0 (by decide)
      ⟨c2_draft, by simp, by decide, by decide, by decide⟩
  · exact C2_token_lookup_validity.2.2.2 c2_hash [c2_draft] "d2" c2_token 1 2 c2_draft
      (by decide) (by decide) (by decide) (by decide)

/-- C3 — Idempotent admission: starting from a store with no row for
`rid` (and no clash on the first draft id), the first `save_draft` returns
the plaintext approval token, the second call with the same `reddit_id`
returns `none` and leaves the store untouched (the uniqueness violation is
swallowed, not raised), and exactly one row for `rid` exists afterwards. -/
theorem C3_idempotent_admission (hash : String → String) (base_url : String)
    (store : List DraftQueue)
    (d1 d2 rid sub c1 c2 u1 u2 st1 st2 ct1 ct2 : String) (q1 q2 : ℚ)
    (tok1 tok2 : String) (t1 t2 : Int)
    (hfresh : ∀ d ∈ store, ¬ d.reddit_id = rid ∧ ¬ d.draft_id = d1) :
    (save_draft hash base_url store d1 rid sub c1 u1 st1 ct1 q1 tok1 t1).1
      = some tok1
    ∧ save_draft hash base_url
        (save_draft hash base_url store d1 rid sub c1 u1 st1 ct1 q1 tok1 t1).2
        d2 rid sub c2 u2 st2 ct2 q2 tok2 t2
      = (none,
        (save_draft hash base_url store d1 rid sub c1 u1 st1 ct1 q1 tok1 t1).2)
    ∧ countRedditId
        (save_draft hash base_url store d1 rid sub c1 u1 st1 ct1 q1 tok1 t1).2 rid
      = 1 := by
  have hany : store.any (fun d => d.reddit_id == rid || d.draft_id == d1) = false := by
    rw [List.any_eq_false]
    intro d hd
    simp [(hfresh d hd).1, (hfresh d hd).2]
  have e1 : save_draft hash base_url store d1 rid sub c1 u1 st1 ct1 q1 tok1 t1
      = (some tok1, store ++
        [{ draft_id := d1, reddit_id := rid, subreddit := sub, content := c1
           context_url := u1, status := st1, created_at := t1
           approval_token_hash := some (hash tok1)
           approve_url := some (base_url ++ "/approve?token=" ++ tok1 ++ "&action=approve")
           reject_url := some (base_url ++ "/approve?token=" ++ tok1 ++ "&action=reject")
           candidate_type := ct1, quality_score := q1 }]) := by
    simp [save_draft, hany]
  refine ⟨by rw [e1], ?_, ?_⟩
  · rw [e1]
    simp [save_draft]
  · rw [e1]
    have hnil : store.filter (fun d => d.reddit_id == rid) = [] := by
      rw [List.filter_eq_nil_iff]
      intro d hd
      simp [(hfresh d hd).1]
    simp [countRedditId, List.filter_append, hnil]

/-- Witness for C3: two saves against an initially empty store. -/
theorem C3_idempotent_admission_witness :
    (save_draft c2_hash "https://a" [] "dA" "rX" "s" "c" "u" "PENDING" "comment" 0
        "tokenAAAAAAAAAAAAAAAA" 0).1 = some "tokenAAAAAAAAAAAAAAAA"
    ∧ countRedditId
        (save_draft c2_hash "https://a"
          (save_draft c2_hash "https://a" [] "dA" "rX" "s" "c" "u" "PENDING" "comment" 0
            "tokenAAAAAAAAAAAAAAAA" 0).2
          "dB" "rX" "s" "c2" "u2" "PENDING" "comment" 0
          "tokenBBBBBBBBBBBBBBBB" 1).2 "rX" = 1 := by
  have h := C3_idempotent_admission c2_hash "https://a" [] "dA" "dB" "rX" "s" "c" "c2"
    "u" "u2" "PENDING" "PENDING" "comment" "comment" 0 0
    "tokenAAAAAAAAAAAAAAAA" "tokenBBBBBBBBBBBBBBBB" 0 1 (by simp)
  refine ⟨h.1, ?_⟩
  rw [h.2.1]
  exact h.2.2

/-! ## C9/C10: token persistence and the lookup guard -/

/-- `True` when `needle` occurs as a contiguous run inside `hay`. -/
def charsContain (needle : List Char) : List Char → Bool
  | [] => needle.isEmpty
  | c :: cs => needle.isPrefixOf (c :: cs) || charsContain needle cs

/-- `True` when the string `needle` occurs inside `hay`. -/
def strContains (hay needle : String) : Bool :=
  charsContain needle.data hay.data

/-- The string-valued columns persisted for a draft row. -/
def draftStoredStringFields (d : DraftQueue) : List String :=
  [d.draft_id, d.reddit_id, d.subreddit, d.content, d.context_url, d.status,
   d.approval_token_hash.getD "", d.approve_url.getD "", d.reject_url.getD "",
   d.candidate_type]

/-- `True` when the plaintext token occurs in some persisted column. -/
def plaintextInStoredDraft (tok : String) (d : DraftQueue) : Bool :=
  (draftStoredStringFields d).any (fun f => strContains f tok)

/-- The token used for the C9 counterexample. -/
def c9_token : String := "SECRETTOKEN0123456789"

/-- The store produced by one `save_draft` call with a constant stand-in
hash function (so that no field contains the token through the hash). -/
def c9_store : List DraftQueue :=
  (save_draft (fun _ => "d41d8cd98f00b204e980") "https://agent.example" []
    "d9" "r9" "sub" "body" "https://ctx" "PENDING" "comment" 0 c9_token 0).2

/-- C9 counterexample: the claim says the plaintext token never appears in
any field of the stored `DraftRecord`, but `save_draft` persists
`approve_url`/`reject_url` strings that embed the plaintext token
(state_manager.py lines 120-135), so the stored row does contain it. -/
theorem C9_counterexample :
    c9_store.all (fun d => ! plaintextInStoredDraft c9_token d) = false := by
  decide

/-- C9 amended — on creation the token-hash column receives only the hash
of the token and the plaintext is handed back to the caller (for the
notifier) exactly once, as the return value; however the plaintext token is
also embedded verbatim in the persisted `approve_url` and `reject_url`
columns of the new row. -/
theorem C9_amended_token_persistence (hash : String → String) (base_url : String)
    (store : List DraftQueue) (d1 rid sub c u st ct : String) (q : ℚ)
    (tok : String) (t : Int)
    (hfresh : store.any (fun d => d.reddit_id == rid || d.draft_id == d1) = false) :
    save_draft hash base_url store d1 rid sub c u st ct q tok t
      = (some tok, store ++
        [{ draft_id := d1, reddit_id := rid, subreddit := sub, content := c
           context_url := u, status := st, created_at := t
           approval_token_hash := some (hash tok)
           approve_url := some (base_url ++ "/approve?token=" ++ tok ++ "&action=approve")
           reject_url := some (base_url ++ "/approve?token=" ++ tok ++ "&action=reject")
           candidate_type := ct, quality_score := q }]) := by
  simp [save_draft, hfresh]

/-- Witness for the amended C9 at a concrete empty store. -/
theorem C9_amended_token_persistence_witness :
    save_draft (fun _ => "d41d8cd98f00b204e980") "https://agent.example" []
      "d9" "r9" "sub" "body" "https://ctx" "PENDING" "comment" 0 c9_token 0
    = (some c9_token,
      [{ draft_id := "d9", reddit_id := "r9", subreddit := "sub", content := "body"
         context_url := "https://ctx", status := "PENDING", created_at := 0
         approval_token_hash := some "d41d8cd98f00b204e980"
         approve_url := some ("https://agent.example/approve?token=" ++ c9_token
           ++ "&action=approve")
         reject_url := some ("https://agent.example/approve?token=" ++ c9_token
           ++ "&action=reject")
         candidate_type := "comment", quality_score := 0 }]) := by
  exact C9_amended_token_persistence (fun _ => "d41d8cd98f00b204e980")
    "https://agent.example" [] "d9" "r9" "sub" "body" "https://ctx" "PENDING"
    "comment" 0 c9_token 0 (by decide)

/-- C10 — Input-validation guard: a token that is empty or shorter than 20
characters resolves to not-found for every store and every hash function —
the result depends on neither, so the store is not consulted and the token
is not hashed. -/
theorem C10_short_token_guard (hash : String → String) (store : List DraftQueue)
    (token : String) (now : Int) (h : token.length < 20) :
    get_draft_by_token hash store token now = none := by
  simp [get_draft_by_token, h]

/-- Witness for C10: the empty token is refused even against a store whose
single pending draft would match the hash of the empty token. -/
theorem C10_short_token_guard_witness :
    get_draft_by_token (fun _ => "H") [sampleDraft] "" 0 = none := by
  exact C10_short_token_guard (fun _ => "H") [sampleDraft] "" 0 (by decide)

/-! ## Cooldown / replay guard (src/services/state_manager.py lines 309-355) -/

/-- A row of the `replied_items` table (src/models/database.py lines 24-34),
together with the `candidate_type` column added by migration 004 and set by
`mark_replied` (state_manager.py lines 281, 288). -/
structure RepliedItem where
  reddit_id : String
  subreddit : String
  status : String
  last_attempt : Int
  candidate_type : String := "comment"
deriving Repr, DecidableEq

/-- `hasattr(item, 'priority')` (state_manager.py line 342): `RepliedItem`
defines no `priority` attribute — neither the model
(models/database.py lines 24-34) nor any migration adds one — so the test
is `False` for every queried row. -/
def repliedItemHasPriorityAttr : Bool := false

/-- `StateManager.is_retryable` (state_manager.py lines 309-355): unknown
items are retryable, `SUCCESS` and `SKIPPED` never, `FAILED` after a
cooldown whose length is selected by the
`candidate_type == "comment" and hasattr(item, 'priority')` test. -/
def is_retryable (item : Option RepliedItem)
    (cooldown_hours inbox_cooldown_hours : Int) (now : Int) : Bool :=
  match item with
  | none => true
  | some item =>
    if item.status == "SUCCESS" then false
    else if item.status == "SKIPPED" then false
    else
      let cooldownHours :=
        if item.candidate_type == "comment" && repliedItemHasPriorityAttr
        then inbox_cooldown_hours
        else cooldown_hours
      let cooldownEnd := item.last_attempt + cooldownHours * 3600
      if now < cooldownEnd then false else true

/-- A `FAILED` inbox comment item whose last attempt was at time 0. -/
def c4_item : RepliedItem :=
  { reddit_id := "c1", subreddit := "s", status := "FAILED"
    last_attempt := 0, candidate_type := "comment" }

/-- C4 — the claimed 6-hour cooldown for high-priority (inbox) items never
applies: with the default cooldowns (24h general, 6h inbox) a `FAILED`
inbox comment item is still not retryable at `T+6h01m` (and at `T+5h59m`),
and only becomes retryable once the 24-hour general cooldown elapses
(`T+24h01m`), because the `hasattr(item, 'priority')` guard is always
false. -/
theorem C4_cooldown_divergence :
    is_retryable (some c4_item) 24 6 (6 * 3600 + 60) = false
    ∧ is_retryable (some c4_item) 24 6 (5 * 3600 + 3540) = false
    ∧ is_retryable (some c4_item) 24 6 (24 * 3600 + 60) = true := by
  decide

/-! ## Reddit client risk governor (src/services/reddit_client.py) -/

/-- The two exception classes of the client (reddit_client.py lines 23-30):
`SafetyLockoutException` (fatal, run-terminating) and `RateLimitExceeded`
(retryable later). -/
inductive ClientError
  | safetyLockout
  | rateLimitExceeded
deriving Repr, DecidableEq

/-- The two guards a client method may invoke before touching the network. -/
inductive ClientCheck
  | rateLimit
  | shadowbanRisk
deriving Repr, DecidableEq

/-- The upstream network operations of `RedditClient`. -/
inductive ClientOp
  | fetchInboxReplies
  | fetchRisingPosts
  | postComment
  | getCommentContext
  | getPostContext
deriving Repr, DecidableEq

/-- The safety-tracking state of the client (reddit_client.py
lines 137-141): `_error_counts` for `"403"` and `"empty_listing"`, the
total-request counter, the remaining rate-limit budget and the configured
risk threshold. -/
structure RedditClientState where
  error_403 : Nat
  error_empty_listing : Nat
  total_requests : Nat
  rate_limit_remaining : Int
  risk_threshold : ℚ
deriving Repr, DecidableEq

/-- `RedditClient._calculate_shadowban_risk` (reddit_client.py
lines 261-285): zero before any request, otherwise the 0.6/0.4-weighted
blend of the two error rates over `max(total_requests, 1)`, capped at 1. -/
def calculate_shadowban_risk (s : RedditClientState) : ℚ :=
  if s.total_requests = 0 then 0
  else
    let error403Rate : ℚ := (s.error_403 : ℚ) / (max s.total_requests 1 : ℕ)
    let emptyRate : ℚ := (s.error_empty_listing : ℚ) / (max s.total_requests 1 : ℕ)
    min (error403Rate * (6 / 10) + emptyRate * (4 / 10)) 1

/-- `RedditClient._check_shadowban_risk` (lines 287-306): raises the fatal
`SafetyLockoutException` when the risk strictly exceeds the threshold. -/
def check_shadowban_risk (s : RedditClientState) : Except ClientError Unit :=
  if s.risk_threshold < calculate_shadowban_risk s then .error .safetyLockout
  else .ok ()

/-- `RedditClient._check_rate_limit` (lines 312-326): raises the retryable
`RateLimitExceeded` when the remaining budget is zero or below. -/
def check_rate_limit (s : RedditClientState) : Except ClientError Unit :=
  if s.rate_limit_remaining ≤ 0 then .error .rateLimitExceeded
  else .ok ()

/-- The guard sequence each public client method executes before its first
network access, in source order: `fetch_inbox_replies` lines 422-423,
`fetch_rising_posts` lines 513-514 (on a cache miss — a cache hit performs
no network access at all), `post_comment` lines 686-687,
`get_comment_context` line 726 and `get_post_context` line 770 call only
`_check_rate_limit`. -/
def preNetworkChecks : ClientOp → List ClientCheck
  | .fetchInboxReplies => [.rateLimit, .shadowbanRisk]
  | .fetchRisingPosts => [.rateLimit, .shadowbanRisk]
  | .postComment => [.rateLimit, .shadowbanRisk]
  | .getCommentContext => [.rateLimit]
  | .getPostContext => [.rateLimit]

/-- Dispatch one guard. -/
def runCheck (s : RedditClientState) : ClientCheck → Except ClientError Unit
  | .rateLimit => check_rate_limit s
  | .shadowbanRisk => check_shadowban_risk s

/-- Execute a guard sequence, stopping at the first raised exception. -/
def runChecks (s : RedditClientState) : List ClientCheck → Except ClientError Unit
  | [] => .ok ()
  | c :: cs =>
    match runCheck s c with
    | .error e => .error e
    | .ok _ => runChecks s cs

/-- A client state with ten forbidden errors in ten requests: risk is 1. -/
def c5_state : RedditClientState :=
  { error_403 := 10, error_empty_listing := 10, total_requests := 10
    rate_limit_remaining := 5, risk_threshold := 7 / 10 }

/-- C5 counterexample: the claim says the risk check runs before *every*
upstream network operation, but `get_comment_context` (and likewise
`get_post_context`) runs only the rate-limit check: even with risk 1,
strictly above the 0.7 threshold, its guard sequence passes instead of
refusing with the fatal signal. -/
theorem C5_counterexample :
    ClientCheck.shadowbanRisk ∉ preNetworkChecks ClientOp.getCommentContext
    ∧ c5_state.risk_threshold < calculate_shadowban_risk c5_state
    ∧ runChecks c5_state (preNetworkChecks ClientOp.getCommentContext) = .ok () := by
  refine ⟨by decide, ?_, by rfl⟩
  norm_num [c5_state, calculate_shadowban_risk]

/-- C5 amended — the remaining-quota check runs before every upstream
network operation, and the risk check before every one except the two
context-retrieval operations; for the guarded operations, whenever the
risk — the 0.6/0.4-weighted blend of the forbidden-error and empty-result
rates over total requests, capped at 1 — strictly exceeds the threshold,
the operation is refused with the fatal `safetyLockout` signal before any
network call, a signal distinct from the retryable `rateLimitExceeded`
raised when the quota is exhausted. -/
theorem C5_amended_risk_gate :
    (∀ op : ClientOp, ClientCheck.rateLimit ∈ preNetworkChecks op)
    ∧ (∀ op : ClientOp, op ≠ ClientOp.getCommentContext →
        op ≠ ClientOp.getPostContext →
        ClientCheck.shadowbanRisk ∈ preNetworkChecks op)
    ∧ (∀ s : RedditClientState, 0 < s.total_requests →
        calculate_shadowban_risk s
          = min ((s.error_403 : ℚ) / s.total_requests * (6 / 10)
              + (s.error_empty_listing : ℚ) / s.total_requests * (4 / 10)) 1)
    ∧ (∀ s : RedditClientState, calculate_shadowban_risk s ≤ 1)
    ∧ (∀ (s : RedditClientState) (op : ClientOp),
        0 < s.rate_limit_remaining →
        s.risk_threshold < calculate_shadowban_risk s →
        ClientCheck.shadowbanRisk ∈ preNetworkChecks op →
        runChecks s (preNetworkChecks op) = .error .safetyLockout)
    ∧ (∀ (s : RedditClientState) (op : ClientOp),
        s.rate_limit_remaining ≤ 0 →
        runChecks s (preNetworkChecks op) = .error .rateLimitExceeded)
    ∧ ClientError.safetyLockout ≠ ClientError.rateLimitExceeded := by
  refine ⟨?_, ?_, ?_, ?_, ?_, ?_, by decide⟩
  · intro op
    cases op <;> simp [preNetworkChecks]
  · intro op h1 h2
    cases op <;> simp_all [preNetworkChecks]
  · intro s h
    have h0 : s.total_requests ≠ 0 := Nat.pos_iff_ne_zero.mp h
    have hm : max s.total_requests 1 = s.total_requests := Nat.max_eq_left h
    simp [calculate_shadowban_risk, h0, hm]
  · intro s
    rw [calculate_shadowban_risk]
    split
    · norm_num
    · exact min_le_right _ _
  · intro s op h1 h2 hmem
    have hrl : check_rate_limit s = .ok () := by
      simp [check_rate_limit, not_le.mpr h1]
    have hsb : check_shadowban_risk s = .error .safetyLockout := by
      simp [check_shadowban_risk, h2]
    cases op <;> simp_all [preNetworkChecks, runChecks, runCheck]
  · intro s op h
    have hrl : check_rate_limit s = .error .rateLimitExceeded := by
      simp [check_rate_limit, h]
    cases op <;> simp [preNetworkChecks, runChecks, runCheck, hrl]

/-- Witness for the amended C5: with risk 1 and budget remaining,
`post_comment` is refused with the fatal signal; with the budget exhausted,
`get_post_context` is refused with the retryable signal. -/
theorem C5_amended_risk_gate_witness :
    runChecks c5_state (preNetworkChecks ClientOp.postComment)
      = .error .safetyLockout
    ∧ runChecks
        { error_403 := 0, error_empty_listing := 0, total_requests := 0
          rate_limit_remaining := 0, risk_threshold := 7 / 10 }
        (preNetworkChecks ClientOp.getPostContext)
      = .error .rateLimitExceeded := by
  constructor
  · exact C5_amended_risk_gate.2.2.2.2.1 c5_state ClientOp.postComment
      (by decide) (by norm_num [c5_state, calculate_shadowban_risk]) (by decide)
  · exact C5_amended_risk_gate.2.2.2.2.2.1
      { error_403 := 0, error_empty_listing := 0, total_requests := 0
        rate_limit_remaining := 0, risk_threshold := 7 / 10 }
      ClientOp.getPostContext (by decide)

/-! ## Quality scorer (src/services/quality_scorer.py) -/

/-- The seven configurable component weights (config.py lines 85-92). -/
structure ScoreWeights where
  upvote : ℚ
  karma : ℚ
  freshness : ℚ
  velocity : ℚ
  question : ℚ
  depth : ℚ
  historical : ℚ
deriving Repr, DecidableEq

/-- The raw sum of the seven weights (quality_scorer.py lines 59-67). -/
def totalWeight (w : ScoreWeights) : ℚ :=
  w.upvote + w.karma + w.freshness + w.velocity + w.question + w.depth
    + w.historical

/-- Weight normalization in `QualityScorer.__init__` (quality_scorer.py
lines 58-78): each weight is divided by the raw total, with a zero total
replaced by 1.0 to avoid division by zero (lines 69-70). -/
def normalizeWeights (w : ScoreWeights) : ScoreWeights :=
  let total := totalWeight w
  let total := if total = 0 then 1 else total
  { upvote := w.upvote / total
    karma := w.karma / total
    freshness := w.freshness / total
    velocity := w.velocity / total
    question := w.question / total
    depth := w.depth / total
    historical := w.historical / total }

/-- All seven raw weights nonnegative. -/
def ScoreWeights.Nonneg (w : ScoreWeights) : Prop :=
  0 ≤ w.upvote ∧ 0 ≤ w.karma ∧ 0 ≤ w.freshness ∧ 0 ≤ w.velocity
    ∧ 0 ≤ w.question ∧ 0 ≤ w.depth ∧ 0 ≤ w.historical

/-- Banding thresholds consumed by the sub-scores (config.py). -/
structure ScorerSettings where
  score_upvote_excellent : ℚ
  score_upvote_good : ℚ
  score_upvote_mixed : ℚ
  score_karma_established : Int
  score_karma_active : Int
  score_karma_regular : Int
  score_freshness_hot : ℚ
  score_freshness_active : ℚ
  score_freshness_warm : ℚ
  score_freshness_cooling : ℚ
  score_velocity_viral : ℚ
  score_velocity_high : ℚ
  score_velocity_moderate : ℚ
  score_velocity_low : ℚ
  score_depth_ideal_min : Int
  score_depth_ideal_max : Int
  score_depth_early_min : Int
  score_depth_crowded_max : Int
  learning_enabled : Bool
deriving Repr, DecidableEq

/-- The observable signals of a candidate that the seven sub-scores read.
Posts carry a native `upvote_ratio`; comments an estimate derived from the
raw comment score (quality_scorer.py lines 148-162).  The regex matching of
help/problem keyword patterns (lines 283-288) is abstracted into the two
match booleans. -/
structure ScoringInput where
  isPost : Bool
  upvote_ratio : ℚ
  comment_score : Int
  author_karma : Option (Int × Int)
  age_seconds : ℚ
  thread_age_seconds : ℚ
  thread_num_comments : Int
  title_has_question_mark : Bool
  help_keyword_match : Bool
  problem_keyword_match : Bool
  subreddit : String

/-- `QualityScorer._score_upvote_ratio` (lines 145-175). -/
def score_upvote_ratio (s : ScorerSettings) (c : ScoringInput) : ℚ :=
  let ratio :=
    if c.isPost then c.upvote_ratio
    else if c.comment_score ≥ 10 then 85 / 100
    else if c.comment_score ≥ 5 then 75 / 100
    else if c.comment_score ≥ 2 then 65 / 100
    else if c.comment_score ≥ 0 then 55 / 100
    else 40 / 100
  if ratio ≥ s.score_upvote_excellent then 1
  else if ratio ≥ s.score_upvote_good then 8 / 10
  else if ratio ≥ s.score_upvote_mixed then 5 / 10
  else 2 / 10

/-- `QualityScorer._score_author_karma` (lines 177-207); a deleted author
(`None`) scores 0. -/
def score_author_karma (s : ScorerSettings) (c : ScoringInput) : ℚ :=
  match c.author_karma with
  | none => 0
  | some karma =>
    let total := karma.1 + karma.2
    if total ≥ s.score_karma_established then 1
    else if total ≥ s.score_karma_active then 8 / 10
    else if total ≥ s.score_karma_regular then 5 / 10
    else 3 / 10

/-- `QualityScorer._score_freshness` (lines 209-232). -/
def score_freshness (s : ScorerSettings) (c : ScoringInput) : ℚ :=
  if c.age_seconds < s.score_freshness_hot then 1
  else if c.age_seconds < s.score_freshness_active then 8 / 10
  else if c.age_seconds < s.score_freshness_warm then 6 / 10
  else if c.age_seconds < s.score_freshness_cooling then 4 / 10
  else 2 / 10

/-- `QualityScorer._score_velocity` (lines 234-263): comments per minute of
the parent thread, with the age floored at one minute. -/
def score_velocity (s : ScorerSettings) (c : ScoringInput) : ℚ :=
  let ageMinutes := c.thread_age_seconds / 60
  let ageMinutes := if ageMinutes < 1 then 1 else ageMinutes
  let velocity := (c.thread_num_comments : ℚ) / ageMinutes
  if velocity ≥ s.score_velocity_viral then 1
  else if velocity ≥ s.score_velocity_high then 8 / 10
  else if velocity ≥ s.score_velocity_moderate then 6 / 10
  else if velocity ≥ s.score_velocity_low then 4 / 10
  else 2 / 10

/-- `QualityScorer._score_question_signal` (lines 265-298): +0.4 for a
question mark in the title, +0.3 for a help-keyword match, +0.3 for a
problem-keyword match, floored at 0.2 when nothing matches, capped at 1. -/
def score_question_signal (c : ScoringInput) : ℚ :=
  let score : ℚ := 0
  let score := if c.title_has_question_mark then score + 4 / 10 else score
  let score := if c.help_keyword_match then score + 3 / 10 else score
  let score := if c.problem_keyword_match then score + 3 / 10 else score
  let score := if score = 0 then 2 / 10 else score
  min score 1

/-- `QualityScorer._score_thread_depth` (lines 300-326). -/
def score_thread_depth (s : ScorerSettings) (c : ScoringInput) : ℚ :=
  let n := c.thread_num_comments
  if s.score_depth_ideal_min ≤ n ∧ n ≤ s.score_depth_ideal_max then 1
  else if s.score_depth_early_min ≤ n ∧ n < s.score_depth_ideal_min then 8 / 10
  else if s.score_depth_ideal_max < n ∧ n ≤ s.score_depth_crowded_max then 7 / 10
  else if n < s.score_depth_early_min then 4 / 10
  else 3 / 10

/-- `QualityScorer._score_historical` (lines 328-341): neutral 0.5 when
learning is disabled or no tracker is attached, otherwise the tracker's
per-subreddit score. -/
def score_historical (s : ScorerSettings) (tracker : Option (String → ℚ))
    (subreddit : String) : ℚ :=
  if ¬ s.learning_enabled then 1 / 2
  else
    match tracker with
    | none => 1 / 2
    | some getScore => getScore subreddit

/-- `QualityScorer.score_candidate` (lines 93-143) composed with the
constructor's weight normalization: the weighted sum of the seven
sub-scores under the normalized weights. -/
def score_candidate (s : ScorerSettings) (w : ScoreWeights)
    (tracker : Option (String → ℚ)) (c : ScoringInput) : ℚ :=
  let nw := normalizeWeights w
  score_upvote_ratio s c * nw.upvote
    + score_author_karma s c * nw.karma
    + score_freshness s c * nw.freshness
    + score_velocity s c * nw.velocity
    + score_question_signal c * nw.question
    + score_thread_depth s c * nw.depth
    + score_historical s tracker c.subreddit * nw.historical

/-! ### Sub-score bounds -/

theorem score_upvote_ratio_bounds (s : ScorerSettings) (c : ScoringInput) :
    0 ≤ score_upvote_ratio s c ∧ score_upvote_ratio s c ≤ 1 := by
  simp only [score_upvote_ratio]
  constructor <;> split_ifs <;> norm_num

theorem score_author_karma_bounds (s : ScorerSettings) (c : ScoringInput) :
    0 ≤ score_author_karma s c ∧ score_author_karma s c ≤ 1 := by
  rcases hak : c.author_karma with _ | karma <;>
      simp only [score_author_karma, hak]
  · norm_num
  · constructor <;> split_ifs <;> norm_num

theorem score_freshness_bounds (s : ScorerSettings) (c : ScoringInput) :
    0 ≤ score_freshness s c ∧ score_freshness s c ≤ 1 := by
  simp only [score_freshness]
  constructor <;> split_ifs <;> norm_num

theorem score_velocity_bounds (s : ScorerSettings) (c : ScoringInput) :
    0 ≤ score_velocity s c ∧ score_velocity s c ≤ 1 := by
  simp only [score_velocity]
  constructor <;> split_ifs <;> norm_num

theorem score_question_signal_bounds (c : ScoringInput) :
    0 ≤ score_question_signal c ∧ score_question_signal c ≤ 1 := by
  simp only [score_question_signal, min_def]
  constructor <;> split_ifs <;> norm_num

theorem score_thread_depth_bounds (s : ScorerSettings) (c : ScoringInput) :
    0 ≤ score_thread_depth s c ∧ score_thread_depth s c ≤ 1 := by
  simp only [score_thread_depth]
  constructor <;> split_ifs <;> norm_num

theorem score_historical_bounds (s : ScorerSettings)
    (tracker : Option (String → ℚ)) (subreddit : String)
    (htr : ∀ f, tracker = some f → 0 ≤ f subreddit ∧ f subreddit ≤ 1) :
    0 ≤ score_historical s tracker subreddit
      ∧ score_historical s tracker subreddit ≤ 1 := by
  unfold score_historical
  split
  · norm_num
  · cases tracker with
    | none => norm_num
    | some f => simpa using htr f rfl

/-- The sum of the normalized weights is 0 for a zero raw total and 1
otherwise. -/
theorem totalWeight_normalizeWeights (w : ScoreWeights) :
    totalWeight (normalizeWeights w)
      = if totalWeight w = 0 then 0 else 1 := by
  by_cases hT : totalWeight w = 0
  · have hT2 : w.upvote + w.karma + w.freshness + w.velocity + w.question
        + w.depth + w.historical = 0 := by simpa [totalWeight] using hT
    rw [if_pos hT]
    simp [normalizeWeights, totalWeight, hT2]
  · have hT2 : w.upvote + w.karma + w.freshness + w.velocity + w.question
        + w.depth + w.historical ≠ 0 := by simpa [totalWeight] using hT
    rw [if_neg hT]
    simp only [normalizeWeights, totalWeight, if_neg hT2]
    rw [div_add_div_same, div_add_div_same, div_add_div_same, div_add_div_same,
      div_add_div_same, div_add_div_same, div_self hT2]

theorem normalizeWeights_nonneg (w : ScoreWeights) (hw : w.Nonneg) :
    (normalizeWeights w).Nonneg := by
  obtain ⟨h1, h2, h3, h4, h5, h6, h7⟩ := hw
  have hT : 0 ≤ totalWeight w := by unfold totalWeight; linarith
  have hT2 : (0 : ℚ) ≤ if totalWeight w = 0 then 1 else totalWeight w := by
    split <;> norm_num [hT]
  exact ⟨div_nonneg h1 hT2, div_nonneg h2 hT2, div_nonneg h3 hT2,
    div_nonneg h4 hT2, div_nonneg h5 hT2, div_nonneg h6 hT2, div_nonneg h7 hT2⟩

/-- The all-zero raw weight configuration. -/
def zeroWeights : ScoreWeights :=
  { upvote := 0, karma := 0, freshness := 0, velocity := 0, question := 0
    depth := 0, historical := 0 }

/-- C6 counterexample: the claim says the constructor normalizes the seven
weights so they sum to 1.0 even if the raw weights sum to something else,
but for the all-zero configuration the guard `if total_weight == 0:
total_weight = 1.0` (quality_scorer.py lines 69-70) leaves every weight at
0, so the normalized weights sum to 0, not 1. -/
theorem C6_counterexample : totalWeight (normalizeWeights zeroWeights) ≠ 1 := by
  norm_num [totalWeight, normalizeWeights, zeroWeights]

/-- C6 amended — whenever the seven raw weights have a nonzero sum the
normalized weights sum to exactly 1 (seven raw weights of 0.2 each
normalize to 1/7 ≈ 0.1429 each); for a zero raw sum the divisor is replaced
by 1.0 and all weights remain 0.  For every candidate input, every setting,
every tracker returning values in [0,1], and every nonnegative raw weight
configuration, the composite quality score lies in [0,1]. -/
theorem C6_amended_score_bounds :
    (∀ w : ScoreWeights, totalWeight w ≠ 0 →
      totalWeight (normalizeWeights w) = 1)
    ∧ normalizeWeights
        { upvote := 2 / 10, karma := 2 / 10, freshness := 2 / 10
          velocity := 2 / 10, question := 2 / 10, depth := 2 / 10
          historical := 2 / 10 }
      = { upvote := 1 / 7, karma := 1 / 7, freshness := 1 / 7
          velocity := 1 / 7, question := 1 / 7, depth := 1 / 7
          historical := 1 / 7 }
    ∧ (∀ (s : ScorerSettings) (w : ScoreWeights)
        (tracker : Option (String → ℚ)) (c : ScoringInput),
      w.Nonneg →
      (∀ f, tracker = some f → 0 ≤ f c.subreddit ∧ f c.subreddit ≤ 1) →
      0 ≤ score_candidate s w tracker c ∧ score_candidate s w tracker c ≤ 1) := by
  refine ⟨?_, ?_, ?_⟩
  · intro w hT
    rw [totalWeight_normalizeWeights, if_neg hT]
  · norm_num [normalizeWeights, totalWeight]
  · intro s w tracker c hw htr
    obtain ⟨n1, n2, n3, n4, n5, n6, n7⟩ := normalizeWeights_nonneg w hw
    have hsum : totalWeight (normalizeWeights w) ≤ 1 := by
      rw [totalWeight_normalizeWeights]
      split <;> norm_num
    have hsum2 : (normalizeWeights w).upvote + (normalizeWeights w).karma
        + (normalizeWeights w).freshness + (normalizeWeights w).velocity
        + (normalizeWeights w).question + (normalizeWeights w).depth
        + (normalizeWeights w).historical ≤ 1 := by
      simpa [totalWeight] using hsum
    have b1 := score_upvote_ratio_bounds s c
    have b2 := score_author_karma_bounds s c
    have b3 := score_freshness_bounds s c
    have b4 := score_velocity_bounds s c
    have b5 := score_question_signal_bounds c
    have b6 := score_thread_depth_bounds s c
    have b7 := score_historical_bounds s tracker c.subreddit htr
    have p1 := mul_le_of_le_one_left n1 b1.2
    have p2 := mul_le_of_le_one_left n2 b2.2
    have p3 := mul_le_of_le_one_left n3 b3.2
    have p4 := mul_le_of_le_one_left n4 b4.2
    have p5 := mul_le_of_le_one_left n5 b5.2
    have p6 := mul_le_of_le_one_left n6 b6.2
    have p7 := mul_le_of_le_one_left n7 b7.2
    have q1 := mul_nonneg b1.1 n1
    have q2 := mul_nonneg b2.1 n2
    have q3 := mul_nonneg b3.1 n3
    have q4 := mul_nonneg b4.1 n4
    have q5 := mul_nonneg b5.1 n5
    have q6 := mul_nonneg b6.1 n6
    have q7 := mul_nonneg b7.1 n7
    have hexp : score_candidate s w tracker c
        = score_upvote_ratio s c * (normalizeWeights w).upvote
          + score_author_karma s c * (normalizeWeights w).karma
          + score_freshness s c * (normalizeWeights w).freshness
          + score_velocity s c * (normalizeWeights w).velocity
          + score_question_signal c * (normalizeWeights w).question
          + score_thread_depth s c * (normalizeWeights w).depth
          + score_historical s tracker c.subreddit * (normalizeWeights w).historical := rfl
    rw [hexp]
    constructor
    · linarith
    · linarith

/-- Witness for the amended C6: the default weight configuration
(0.15/0.10/0.20/0.15/0.15/0.10/0.15, config.py lines 86-92) normalizes to
sum 1, and a concrete candidate with no tracker scores inside [0,1]. -/
theorem C6_amended_score_bounds_witness :
    totalWeight (normalizeWeights
      { upvote := 15 / 100, karma := 10 / 100, freshness := 20 / 100
        velocity := 15 / 100, question := 15 / 100, depth := 10 / 100
        historical := 15 / 100 }) = 1
    ∧ (0 ≤ score_candidate
        { score_upvote_excellent := 90 / 100, score_upvote_good := 75 / 100
          score_upvote_mixed := 60 / 100, score_karma_established := 10000
          score_karma_active := 1000, score_karma_regular := 100
          score_freshness_hot := 1800, score_freshness_active := 3600
          score_freshness_warm := 7200, score_freshness_cooling := 14400
          score_velocity_viral := 2, score_velocity_high := 1
          score_velocity_moderate := 1 / 2, score_velocity_low := 1 / 10
          score_depth_ideal_min := 5, score_depth_ideal_max := 15
          score_depth_early_min := 3, score_depth_crowded_max := 30
          learning_enabled := false }
        { upvote := 15 / 100, karma := 10 / 100, freshness := 20 / 100
          velocity := 15 / 100, question := 15 / 100, depth := 10 / 100
          historical := 15 / 100 }
        none
        { isPost := true, upvote_ratio := 95 / 100, comment_score := 0
          author_karma := some (500, 700), age_seconds := 1200
          thread_age_seconds := 1200, thread_num_comments := 8
          title_has_question_mark := true, help_keyword_match := true
          problem_keyword_match := false, subreddit := "learnpython" }
      ∧ score_candidate
        { score_upvote_excellent := 90 / 100, score_upvote_good := 75 / 100
          score_upvote_mixed := 60 / 100, score_karma_established := 10000
          score_karma_active := 1000, score_karma_regular := 100
          score_freshness_hot := 1800, score_freshness_active := 3600
          score_freshness_warm := 7200, score_freshness_cooling := 14400
          score_velocity_viral := 2, score_velocity_high := 1
          score_velocity_moderate := 1 / 2, score_velocity_low := 1 / 10
          score_depth_ideal_min := 5, score_depth_ideal_max := 15
          score_depth_early_min := 3, score_depth_crowded_max := 30
          learning_enabled := false }
        { upvote := 15 / 100, karma := 10 / 100, freshness := 20 / 100
          velocity := 15 / 100, question := 15 / 100, depth := 10 / 100
          historical := 15 / 100 }
        none
        { isPost := true, upvote_ratio := 95 / 100, comment_score := 0
          author_karma := some (500, 700), age_seconds := 1200
          thread_age_seconds := 1200, thread_num_comments := 8
          title_has_question_mark := true, help_keyword_match := true
          problem_keyword_match := false, subreddit := "learnpython" } ≤ 1) := by
  constructor
  · exact C6_amended_score_bounds.1 _ (by norm_num [totalWeight])
  · exact C6_amended_score_bounds.2.2 _ _ none _
      (by norm_num [ScoreWeights.Nonneg]) (fun f h => by cases h)

/-! ## Diversity selection (src/workflow/nodes.py lines 269-350) -/

/-- The candidate fields read by the selection stages.  `post_id` is the
parent submission id of a `CandidateComment` and is absent from
`CandidatePost` (reddit_client.py lines 33-62), so
`getattr(candidate, 'post_id', '')` (nodes.py line 301) yields `""` for
post candidates. -/
structure Cand where
  reddit_id : String
  subreddit : String
  post_id : String
  quality_score : ℚ
  candidate_type : String
  priority : String := "NORMAL"
deriving Repr, DecidableEq

/-- `subreddit_counts.get(subreddit, 0)` over an association-list tally. -/
def countOf (counts : List (String × Nat)) (sub : String) : Nat :=
  match counts.find? (fun p => p.1 == sub) with
  | some p => p.2
  | none => 0

/-- `subreddit_counts[subreddit] = current_count + 1`. -/
def bumpCount (counts : List (String × Nat)) (sub : String) :
    List (String × Nat) :=
  match counts with
  | [] => [(sub, 1)]
  | p :: rest => if p.1 == sub then (p.1, p.2 + 1) :: rest
    else p :: bumpCount rest sub

/-- The greedy walk of `diversity_select_node` (nodes.py lines 295-340):
a candidate whose non-empty `post_id` was already selected is skipped
(strict, never overridden); a candidate whose subreddit already reached
`max_per_subreddit` is skipped unless its `quality_score` reaches the
quality-boost threshold; otherwise it is selected and the tallies grow. -/
def diversityWalk (m : Nat) (b : ℚ) :
    List (String × Nat) → List String → List Cand → List Cand
  | _, _, [] => []
  | counts, pids, c :: rest =>
    if c.post_id ≠ "" ∧ c.post_id ∈ pids then
      diversityWalk m b counts pids rest
    else if m ≤ countOf counts c.subreddit ∧ c.quality_score < b then
      diversityWalk m b counts pids rest
    else
      c :: diversityWalk m b (bumpCount counts c.subreddit)
        (if c.post_id ≠ "" then c.post_id :: pids else pids) rest

/-- `diversity_select_node` on a candidate list, starting from empty
tallies (nodes.py lines 295-297). -/
def diversity_select (m : Nat) (b : ℚ) (cands : List Cand) : List Cand :=
  diversityWalk m b [] [] cands

/-- The underlying thread of a candidate: the submission itself for a post
candidate, the parent submission for a comment candidate. -/
def threadId (c : Cand) : String :=
  if c.candidate_type = "post" then c.reddit_id else c.post_id

/-- Selected candidates belonging to one underlying thread. -/
def countThread (cands : List Cand) (t : String) : Nat :=
  (cands.filter (fun c => threadId c == t)).length

/-- Selected candidates carrying one `post_id` value. -/
def countPostId (cands : List Cand) (pid : String) : Nat :=
  (cands.filter (fun c => c.post_id == pid)).length

/-- Selected candidates from one subreddit. -/
def countSubreddit (cands : List Cand) (sub : String) : Nat :=
  (cands.filter (fun c => c.subreddit == sub)).length

/-- Selected candidates from one subreddit whose score is below the boost
threshold. -/
def countSubLow (cands : List Cand) (sub : String) (b : ℚ) : Nat :=
  (cands.filter (fun c => c.subreddit == sub
    && decide (c.quality_score < b))).length

/-! ### Tally lemmas -/

theorem countOf_bumpCount_self (counts : List (String × Nat)) (sub : String) :
    countOf (bumpCount counts sub) sub = countOf counts sub + 1 := by
  induction counts with
  | nil => simp [countOf, bumpCount]
  | cons p rest ih =>
    cases hp : (p.1 == sub) with
    | true =>
      simp only [bumpCount, hp, if_true, countOf, List.find?_cons]
    | false =>
      simp only [bumpCount, hp, Bool.false_eq_true, if_false]
      simp only [countOf, List.find?_cons, hp] at ih ⊢
      exact ih

theorem countOf_bumpCount_ne (counts : List (String × Nat)) (sub other : String)
    (h : ¬ other = sub) :
    countOf (bumpCount counts other) sub = countOf counts sub := by
  induction counts with
  | nil =>
    have : (other == sub) = false := by simpa using h
    simp [countOf, bumpCount, List.find?_cons, this]
  | cons p rest ih =>
    cases hp : (p.1 == other) with
    | true =>
      have hps : (p.1 == sub) = false := by
        have := eq_of_beq hp
        simpa [this] using h
      simp only [bumpCount, hp, if_true]
      simp only [countOf, List.find?_cons, hps]
    | false =>
      simp only [bumpCount, hp, Bool.false_eq_true, if_false]
      cases hps : (p.1 == sub) with
      | true => simp only [countOf, List.find?_cons, hps]
      | false =>
        simp only [countOf, List.find?_cons, hps] at ih ⊢
        exact ih

theorem countPostId_cons (c : Cand) (cands : List Cand) (pid : String) :
    countPostId (c :: cands) pid =
      if (c.post_id == pid) = true then countPostId cands pid + 1
      else countPostId cands pid := by
  simp only [countPostId, List.filter_cons]
  split <;> simp

theorem countSubLow_cons (c : Cand) (cands : List Cand) (sub : String) (b : ℚ) :
    countSubLow (c :: cands) sub b =
      if (c.subreddit == sub && decide (c.quality_score < b)) = true
      then countSubLow cands sub b + 1
      else countSubLow cands sub b := by
  simp only [countSubLow, List.filter_cons]
  split <;> simp

/-- Once a post id is on the selected list, the walk never emits another
candidate carrying it. -/
theorem diversityWalk_postId_zero (m : Nat) (b : ℚ) (pid : String)
    (hpid : pid ≠ "") :
    ∀ (cands : List Cand) (counts : List (String × Nat)) (pids : List String),
      pid ∈ pids → countPostId (diversityWalk m b counts pids cands) pid = 0 := by
  intro cands
  induction cands with
  | nil => intro counts pids _; simp [diversityWalk, countPostId]
  | cons c rest ih =>
    intro counts pids hmem
    rw [diversityWalk]
    split
    · exact ih counts pids hmem
    · split
      · exact ih counts pids hmem
      · rename_i hskip1 _
        rw [countPostId_cons]
        have hne : (c.post_id == pid) = false := by
          by_contra hcp
          have hcp2 : c.post_id = pid := by
            have := Bool.of_not_eq_false hcp
            exact eq_of_beq this
          exact hskip1 ⟨hcp2 ▸ hpid, hcp2 ▸ hmem⟩
        rw [hne]
        simp only [Bool.false_eq_true, if_false]
        split
        · exact ih _ _ (List.mem_cons_of_mem _ hmem)
        · exact ih _ _ hmem

/-- The walk emits at most one candidate per non-empty post id. -/
theorem diversityWalk_postId_le_one (m : Nat) (b : ℚ) (pid : String)
    (hpid : pid ≠ "") :
    ∀ (cands : List Cand) (counts : List (String × Nat)) (pids : List String),
      countPostId (diversityWalk m b counts pids cands) pid ≤ 1 := by
  intro cands
  induction cands with
  | nil => intro counts pids; simp [diversityWalk, countPostId]
  | cons c rest ih =>
    intro counts pids
    rw [diversityWalk]
    split
    · exact ih counts pids
    · split
      · exact ih counts pids
      · rw [countPostId_cons]
        cases hcp : (c.post_id == pid) with
        | true =>
          have hcp2 : c.post_id = pid := eq_of_beq hcp
          simp only [if_true]
          have h0 : countPostId (diversityWalk m b (bumpCount counts c.subreddit)
              (if c.post_id ≠ "" then c.post_id :: pids else pids) rest) pid = 0 := by
            apply diversityWalk_postId_zero m b pid hpid
            rw [hcp2]
            simp [hpid]
          omega
        | false =>
          simp only [Bool.false_eq_true, if_false]
          exact ih _ _

/-- The walk emits at most `m - countOf counts sub` below-threshold
candidates from one subreddit. -/
theorem diversityWalk_subLow_le (m : Nat) (b : ℚ) (sub : String) :
    ∀ (cands : List Cand) (counts : List (String × Nat)) (pids : List String),
      countSubLow (diversityWalk m b counts pids cands) sub b
        ≤ m - countOf counts sub := by
  intro cands
  induction cands with
  | nil => intro counts pids; simp [diversityWalk, countSubLow]
  | cons c rest ih =>
    intro counts pids
    rw [diversityWalk]
    split
    · exact ih counts pids
    · split
      · exact ih counts pids
      · rename_i hskip2
        rw [countSubLow_cons]
        by_cases hcs : c.subreddit = sub
        · have hbump : countOf (bumpCount counts c.subreddit) sub
              = countOf counts sub + 1 := by
            rw [hcs]; exact countOf_bumpCount_self counts sub
          have hrec := ih (bumpCount counts c.subreddit)
            (if c.post_id ≠ "" then c.post_id :: pids else pids)
          rw [hbump] at hrec
          by_cases hlow : c.quality_score < b
          · have hcount : ¬ m ≤ countOf counts c.subreddit := fun hm =>
              hskip2 ⟨hm, hlow⟩
            rw [hcs] at hcount
            have hcond : (c.subreddit == sub
                && decide (c.quality_score < b)) = true := by
              simp [hcs, hlow]
            rw [hcond]
            simp only [if_true]
            omega
          · have hcond : (c.subreddit == sub
                && decide (c.quality_score < b)) = false := by
              simp [hlow]
            rw [hcond]
            simp only [Bool.false_eq_true, if_false]
            omega
        · have hcond : (c.subreddit == sub
              && decide (c.quality_score < b)) = false := by
            simp [hcs]
          rw [hcond]
          simp only [Bool.false_eq_true, if_false]
          have hbump : countOf (bumpCount counts c.subreddit) sub
              = countOf counts sub := countOf_bumpCount_ne counts sub c.subreddit hcs
          have hrec := ih (bumpCount counts c.subreddit)
            (if c.post_id ≠ "" then c.post_id :: pids else pids)
          rw [hbump] at hrec
          exact hrec

/-- A post candidate for thread `p1` (carrying no `post_id`). -/
def c8_post : Cand :=
  { reddit_id := "p1", subreddit := "s", post_id := "", quality_score := 1
    candidate_type := "post" }

/-- A comment candidate on the same thread `p1`. -/
def c8_comment1 : Cand :=
  { reddit_id := "c1", subreddit := "s", post_id := "p1", quality_score := 1
    candidate_type := "comment" }

/-- The default quality-boost threshold 0.75 as an explicit reduced
fraction (so that concrete selection runs reduce inside the kernel). -/
def boost075 : ℚ := ⟨3, 4, by decide, by decide⟩

/-- A comment candidate on thread `p2` whose score exactly equals the boost
threshold. -/
def c8_comment2 : Cand :=
  { reddit_id := "c2", subreddit := "s", post_id := "p2"
    quality_score := boost075, candidate_type := "comment" }

/-- C8 counterexample: with the default caps (2 per subreddit, boost
threshold 0.75) all three candidates are selected, so (i) two selected
candidates share the underlying thread `p1` — a post candidate carries no
`post_id`, so the strict per-post check never sees it — and (ii) a third
candidate from the already-capped subreddit `s` is admitted although its
score merely equals, does not exceed, the boost threshold. -/
theorem C8_counterexample :
    boost075 = 75 / 100
    ∧ diversity_select 2 boost075 [c8_post, c8_comment1, c8_comment2]
      = [c8_post, c8_comment1, c8_comment2]
    ∧ countThread [c8_post, c8_comment1, c8_comment2] "p1" = 2
    ∧ countSubreddit [c8_post, c8_comment1, c8_comment2] "s" = 3
    ∧ ¬ c8_comment2.quality_score < boost075
    ∧ c8_comment2.quality_score = boost075 := by
  refine ⟨?_, by decide, by decide, by decide, by decide, by decide⟩
  rw [boost075, Rat.mk'_eq_divInt, Rat.divInt_eq_div]
  norm_num

/-- C8 amended — the per-`post_id` limit is strict: the output of the
diversity stage contains at most one candidate per non-empty `post_id`,
regardless of scores (the quality boost never overrides it); post
candidates carry no `post_id`, so a post candidate and a comment candidate
of the same underlying thread can both be selected.  The per-partition cap
admits at most `max_per_subreddit` candidates scoring below the boost
threshold from any one subreddit; further candidates are admitted only when
their score is greater than or equal to the threshold. -/
theorem C8_amended_diversity_caps (m : Nat) (b : ℚ) (cands : List Cand) :
    (∀ pid : String, pid ≠ "" →
      countPostId (diversity_select m b cands) pid ≤ 1)
    ∧ (∀ sub : String, countSubLow (diversity_select m b cands) sub b ≤ m) := by
  constructor
  · intro pid hpid
    exact diversityWalk_postId_le_one m b pid hpid cands [] []
  · intro sub
    have h := diversityWalk_subLow_le m b sub cands [] []
    simpa [countOf] using h

/-- Witness for the amended C8 on the counterexample input: one selected
candidate carries `post_id = "p2"`, and at most two selected candidates
from subreddit `s` score below the 0.75 boost threshold. -/
theorem C8_amended_diversity_caps_witness :
    countPostId (diversity_select 2 boost075
      [c8_post, c8_comment1, c8_comment2]) "p2" ≤ 1
    ∧ countSubLow (diversity_select 2 boost075
      [c8_post, c8_comment1, c8_comment2]) "s" boost075 ≤ 2 := by
  constructor
  · exact (C8_amended_diversity_caps 2 boost075
      [c8_post, c8_comment1, c8_comment2]).1 "p2" (by decide)
  · exact (C8_amended_diversity_caps 2 boost075
      [c8_post, c8_comment1, c8_comment2]).2 "s"

/-! ## Daily-cap dispatch loop (src/workflow/graph.py lines 154-197,
src/workflow/nodes.py, src/services/state_manager.py lines 361-405) -/

/-- `StateManager.can_post_today` (state_manager.py lines 393-405): under
the limit means strictly below `max_daily`. -/
def can_post_today (daily_count max_daily : Nat) : Bool :=
  daily_count < max_daily

/-- The workflow state fields driving the dispatch loop
(src/workflow/state.py lines 8-41). -/
structure AgentState where
  candidates : List Cand
  current_candidate : Option Cand
  context : Option String
  draft : Option String
  errors : List String
  should_continue : Bool
  processed_count : Nat
deriving Repr

/-- Outcome of the save-and-notify step of `notify_human_node`:
`save_draft` returned `None` (duplicate, no increment), the draft was
saved and the webhook sent (`processed_count` + 1), or an exception was
recorded as a run-level error. -/
inductive NotifyOutcome
  | duplicate
  | notified
  | failed (msg : String)
deriving Repr, DecidableEq

/-- The external collaborators of the per-item pipeline steps, supplied as
oracles: context building (`context_builder` with `reddit_client`), LLM
draft generation, and the save-and-notify step against the draft store. -/
structure LoopOracles where
  buildContext : Cand → Except String String
  generateDraft : Cand → String → Except String String
  notifyHuman : Cand → String → NotifyOutcome

/-- `check_daily_limit_node` (nodes.py lines 433-445). -/
def check_daily_limit_node (daily_count max_daily : Nat) (st : AgentState) :
    AgentState :=
  { st with should_continue := can_post_today daily_count max_daily }

/-- `select_candidate_node` (nodes.py lines 448-473). -/
def select_candidate_node (st : AgentState) : AgentState :=
  match st.candidates with
  | [] => { st with current_candidate := none, should_continue := false }
  | c :: rest => { st with current_candidate := some c, candidates := rest }

/-- `build_context_node` (nodes.py lines 476-531). -/
def build_context_node (o : LoopOracles) (st : AgentState) : AgentState :=
  match st.current_candidate with
  | none => { st with context := none }
  | some c =>
    match o.buildContext c with
    | .ok ctx => { st with context := some ctx }
    | .error e => { st with
        context := none
        errors := st.errors ++ ["Context build failed: " ++ e] }

/-- `generate_draft_node` (nodes.py lines 534-587). -/
def generate_draft_node (o : LoopOracles) (st : AgentState) : AgentState :=
  match st.current_candidate, st.context with
  | some c, some ctx =>
    (match o.generateDraft c ctx with
     | .ok d => { st with draft := some d }
     | .error e => { st with
         draft := none
         errors := st.errors ++ ["Generation failed: " ++ e] })
  | _, _ => { st with draft := none }

/-- `notify_human_node` (nodes.py lines 590-664). -/
def notify_human_node (o : LoopOracles) (st : AgentState) : AgentState :=
  match st.current_candidate, st.draft with
  | some c, some d =>
    (match o.notifyHuman c d with
     | .duplicate => st
     | .notified => { st with processed_count := st.processed_count + 1 }
     | .failed e => { st with
         errors := st.errors ++ ["Notification failed: " ++ e] })
  | _, _ => st

/-- The `should_continue` routing function (nodes.py lines 667-679),
mapped by the graph to `check_daily_limit` or `END`
(graph.py lines 190-197). -/
def should_continue_route (st : AgentState) : Bool :=
  if !st.should_continue then false
  else if st.candidates.isEmpty && st.current_candidate.isNone then false
  else true

/-- The dispatch loop of the workflow graph (graph.py lines 164-197):
`check_daily_limit` gates every single-item dispatch, its `end` edge leaves
the loop for the remainder of the run; `select_candidate` pops one
candidate or ends; the three body nodes run in sequence; the
`should_continue` edge loops back to the gate.  `fuel` bounds the number of
iterations (each iteration consumes one candidate). -/
def run_dispatch_loop (o : LoopOracles) (daily_count max_daily : Nat) :
    Nat → AgentState → AgentState
  | 0, st => st
  | fuel + 1, st =>
    let st := check_daily_limit_node daily_count max_daily st
    if !st.should_continue then st
    else
      let st := select_candidate_node st
      match st.current_candidate with
      | none => st
      | some _ =>
        let st := build_context_node o st
        let st := generate_draft_node o st
        let st := notify_human_node o st
        if should_continue_route st then
          run_dispatch_loop o daily_count max_daily fuel st
        else st

/-- The state entering the dispatch loop: the runner starts with zero
processed items and no errors (runner.py lines 132-140), and the admission
stages only populate `candidates`. -/
def initial_loop_state (cands : List Cand) : AgentState :=
  { candidates := cands, current_candidate := none, context := none
    draft := none, errors := [], should_continue := true, processed_count := 0 }

/-- C7 — Daily cap end-to-end: when the persisted daily counter already
equals the configured maximum, `can_post_today` fails at the first
`check_daily_limit` gate and the run's dispatch loop ends at once — for
every oracle behaviour, candidate list and fuel, no candidate is selected,
`processed_count` stays 0 and the error list stays empty. -/
theorem C7_daily_cap_zero_dispatch (o : LoopOracles) (max_daily fuel : Nat)
    (cands : List Cand) :
    run_dispatch_loop o max_daily max_daily (fuel + 1) (initial_loop_state cands)
      = { initial_loop_state cands with should_continue := false }
    ∧ (run_dispatch_loop o max_daily max_daily (fuel + 1)
        (initial_loop_state cands)).processed_count = 0
    ∧ (run_dispatch_loop o max_daily max_daily (fuel + 1)
        (initial_loop_state cands)).errors = []
    ∧ (run_dispatch_loop o max_daily max_daily (fuel + 1)
        (initial_loop_state cands)).candidates = cands := by
  have h : run_dispatch_loop o max_daily max_daily (fuel + 1)
      (initial_loop_state cands)
      = { initial_loop_state cands with should_continue := false } := by
    rw [run_dispatch_loop]
    simp [check_daily_limit_node, can_post_today]
  exact ⟨h, by rw [h]; simp [initial_loop_state], by rw [h]; simp [initial_loop_state],
    by rw [h]; simp [initial_loop_state]⟩

end RedditAgent
